import Mathlib

/-!
Verification of the price-feed keeper service.

Shallow embedding of the price-feed storage entity (`PriceFeedAccount` in
`solana-keeper-service/wallet-manager.js`, i.e. `price-feed-account.js`),
the update-price instruction module (`UpdatePriceInstruction` /
`PriceUpdateInstructionFactory`), and the keeper scheduler's decision rule
(`KeeperService.shouldUpdatePrice` in `keeper-service.js`).

Modelling conventions:
* `decimal.js` values are modelled as exact rationals (`ℚ`).  The code never
  relies on precision rounding in the fragments verified here; comparisons
  (`greaterThan`, `lessThan`, `lte`) are exact in both worlds.  A
  `Decimal.toString`/`new Decimal(s)` round trip is exact, so a serialized
  decimal string is modelled by the rational it denotes.
* JS timestamps (`Date.now()`) are explicit `ℕ` parameters.
* Public keys are modelled by their base58 string representation, since the
  code only ever compares them via `toString()`.
* JS exceptions become `Except String` results; JS `null`/`undefined` become
  `Option`.
-/

/-- Token pair identity (`this.tokenPair` in the `PriceFeedAccount`
constructor).  Only the fields the verified operations touch are carried;
the base/quote metadata blocks are never read or written by any operation
under verification. -/
structure TokenPair where
  pairId : String
  category : String
deriving DecidableEq

/-- Field block `this.currentPrice` block of the account. -/
structure CurrentPrice where
  price : ℚ
  confidence : ℚ
  sources : List String
  dataPoints : ℕ
  lastUpdateSlot : ℕ
  updateAuthority : Option String
  priceType : String
deriving DecidableEq

/-- Field block `this.statistics` block of the account. -/
structure Statistics where
  high24h : ℚ
  low24h : ℚ
  volume24h : ℚ
  change24h : ℚ
  changePercent24h : ℚ
  high7d : ℚ
  low7d : ℚ
  volume7d : ℚ
  change7d : ℚ
  changePercent7d : ℚ
  allTimeHigh : ℚ
  allTimeLow : ℚ
  allTimeHighDate : ℕ
  allTimeLowDate : ℕ
  totalUpdates : ℕ
  successfulUpdates : ℕ
  failedUpdates : ℕ
  averageUpdateInterval : ℕ
  lastUpdateDuration : ℕ
deriving DecidableEq

/-- One entry of the price-history ring, exactly the object literal built in
`updatePrice` before the `addToHistory` call. -/
structure HistoryEntry where
  price : ℚ
  timestamp : ℕ
  sources : List String
  confidence : ℚ
deriving DecidableEq

/-- Field block `this.history`: the circular buffer.  `entries` holds `none` for the
JS `null` slots. -/
structure HistoryState where
  maxEntries : ℕ
  currentIndex : ℕ
  entries : List (Option HistoryEntry)
deriving DecidableEq

/-- Field block `this.validation.circuitBreaker`. -/
structure CircuitBreaker where
  enabled : Bool
  errorThreshold : ℕ
  timeWindow : ℕ
  recoveryTime : ℕ
  currentErrors : ℕ
  lastError : ℕ
  isBroken : Bool
deriving DecidableEq

/-- Field block `this.validation`. -/
structure ValidationConfig where
  priceThreshold : ℚ
  outlierDetection : Bool
  minimumSources : ℕ
  maximumAge : ℕ
  confidenceThreshold : ℚ
  circuitBreaker : CircuitBreaker
deriving DecidableEq

/-- Field block `this.performance.throughput`. -/
structure Throughput where
  updatesPerSecond : ℕ
  updatesPerMinute : ℕ
  peakThroughput : ℕ
  averageThroughput : ℕ
deriving DecidableEq

/-- Field block `this.performance` (the latency block and the reliability fields other
than `successRate` are never read or written by the verified operations and
are omitted). -/
structure Performance where
  throughput : Throughput
  successRate : ℚ
deriving DecidableEq

/-- The `PriceFeedAccount` storage entity.  The static source-endpoint
configuration maps, the oracle aggregation settings and the `reserved`
padding array are omitted: no operation under verification reads or writes
them. -/
structure PriceFeedAccount where
  version : ℕ
  isInitialized : Bool
  authority : Option String
  createdAt : ℕ
  lastUpdated : ℕ
  tokenPair : TokenPair
  currentPrice : CurrentPrice
  statistics : Statistics
  history : HistoryState
  validation : ValidationConfig
  oracleProgramId : Option String
  performance : Performance
deriving DecidableEq

/-- The `PriceFeedAccount` constructor: field defaults, straight from the
source.  Note `history.entries` starts as the empty JS array; the ring is
only allocated by `initialize`. -/
def PriceFeedAccount.new : PriceFeedAccount where
  version := 1
  isInitialized := false
  authority := none
  createdAt := 0
  lastUpdated := 0
  tokenPair := { pairId := "", category := "SPOT" }
  currentPrice :=
    { price := 0, confidence := 0, sources := [], dataPoints := 0
      lastUpdateSlot := 0, updateAuthority := none, priceType := "AGGREGATED" }
  statistics :=
    { high24h := 0, low24h := 0, volume24h := 0, change24h := 0
      changePercent24h := 0, high7d := 0, low7d := 0, volume7d := 0
      change7d := 0, changePercent7d := 0, allTimeHigh := 0, allTimeLow := 0
      allTimeHighDate := 0, allTimeLowDate := 0, totalUpdates := 0
      successfulUpdates := 0, failedUpdates := 0, averageUpdateInterval := 0
      lastUpdateDuration := 0 }
  history := { maxEntries := 1000, currentIndex := 0, entries := [] }
  validation :=
    { priceThreshold := 5 / 100, outlierDetection := true, minimumSources := 2
      maximumAge := 300000, confidenceThreshold := 70
      circuitBreaker :=
        { enabled := true, errorThreshold := 5, timeWindow := 60000
          recoveryTime := 300000, currentErrors := 0, lastError := 0
          isBroken := false } }
  oracleProgramId := none
  performance :=
    { throughput :=
        { updatesPerSecond := 0, updatesPerMinute := 0, peakThroughput := 0
          averageThroughput := 0 }
      successRate := 0 }

/-- Method ` PriceFeedAccount.initialize(tokenPair, authority, oracleProgram)`.
The source performs no initialized-check: it unconditionally sets
`isInitialized = true`, overwrites `authority`, stamps `createdAt` and
`lastUpdated` with `Date.now()` (the `now` parameter), merges the token
pair (callers pass `pairId`), stores the program id, reallocates the
history ring with `maxEntries` nulls (without resetting `currentIndex`),
and resets the all-time statistics (`allTimeLow` to
`Number.MAX_SAFE_INTEGER`). -/
def PriceFeedAccount.initialize (a : PriceFeedAccount) (pairId : String)
    (authority : String) (oracleProgram : String) (now : ℕ) : PriceFeedAccount :=
  { a with
    isInitialized := true
    authority := some authority
    createdAt := now
    lastUpdated := now
    tokenPair := { a.tokenPair with pairId := pairId }
    oracleProgramId := some oracleProgram
    history := { a.history with entries := List.replicate a.history.maxEntries none }
    statistics := { a.statistics with allTimeHigh := 0, allTimeLow := 9007199254740991 } }

/-- Method `PriceFeedAccount.addToHistory(entry)`: write the entry at
`currentIndex`, then advance the index modulo `maxEntries`. -/
def HistoryState.addToHistory (h : HistoryState) (e : HistoryEntry) : HistoryState :=
  { h with
    entries := h.entries.set h.currentIndex (some e)
    currentIndex := (h.currentIndex + 1) % h.maxEntries }

/-- Method `PriceFeedAccount.update24hStats(price, timestamp)`: recompute the 24h
high/low from the non-null ring entries younger than one day.  The
`volume24h` branch is dead in this embedding because ring entries carry no
`volume` field (the JS entry literal never sets one, so `volumes` is always
empty and `volume24h` is left unchanged). -/
def PriceFeedAccount.update24hStats (a : PriceFeedAccount) (timestamp : ℕ) :
    PriceFeedAccount :=
  let oneDayAgo := timestamp - 24 * 60 * 60 * 1000
  let recent := (a.history.entries.filterMap id).filter
    (fun e => oneDayAgo ≤ e.timestamp)
  match recent.map (fun e => e.price) with
  | [] => a
  | p :: ps =>
    { a with statistics :=
      { a.statistics with high24h := ps.foldl max p, low24h := ps.foldl min p } }

/-- Method `PriceFeedAccount.update7dStats(price, timestamp)`. -/
def PriceFeedAccount.update7dStats (a : PriceFeedAccount) (timestamp : ℕ) :
    PriceFeedAccount :=
  let sevenDaysAgo := timestamp - 7 * 24 * 60 * 60 * 1000
  let recent := (a.history.entries.filterMap id).filter
    (fun e => sevenDaysAgo ≤ e.timestamp)
  match recent.map (fun e => e.price) with
  | [] => a
  | p :: ps =>
    { a with statistics :=
      { a.statistics with high7d := ps.foldl max p, low7d := ps.foldl min p } }

/-- Method `PriceFeedAccount.updateStatistics(newPrice, oldPrice, timestamp)`:
24h/7d recomputation, then the all-time high/low updates, then the price
change (guarded by `oldPrice.greaterThan(0)`; a `Decimal` is always truthy
in JS so the `oldPrice &&` conjunct is just that comparison). -/
def PriceFeedAccount.updateStatistics (a : PriceFeedAccount)
    (newPrice oldPrice : ℚ) (timestamp : ℕ) : PriceFeedAccount :=
  let a1 := a.update24hStats timestamp
  let a2 := a1.update7dStats timestamp
  let s0 := a2.statistics
  let s1 := if s0.allTimeHigh < newPrice then
      { s0 with allTimeHigh := newPrice, allTimeHighDate := timestamp } else s0
  let s2 := if newPrice < s1.allTimeLow then
      { s1 with allTimeLow := newPrice, allTimeLowDate := timestamp } else s1
  let s3 := if 0 < oldPrice then
      { s2 with
        change24h := newPrice - oldPrice
        changePercent24h := (newPrice - oldPrice) / oldPrice * 100 } else s2
  { a2 with statistics := s3 }

/-- Method `PriceFeedAccount.updatePerformanceMetrics(timestamp)`. -/
def PriceFeedAccount.updatePerformanceMetrics (a : PriceFeedAccount) (now : ℕ) :
    PriceFeedAccount :=
  let valid := a.history.entries.filterMap id
  let recent1s := (valid.filter (fun e => now - 1000 ≤ e.timestamp)).length
  let recent1m := (valid.filter (fun e => now - 60000 ≤ e.timestamp)).length
  let t0 := a.performance.throughput
  let t1 := { t0 with updatesPerSecond := recent1s, updatesPerMinute := recent1m }
  let t2 := if t1.peakThroughput < recent1s then
      { t1 with peakThroughput := recent1s } else t1
  let rate := if 0 < a.statistics.totalUpdates then
      (a.statistics.successfulUpdates : ℚ) / (a.statistics.totalUpdates : ℚ) * 100
    else a.performance.successRate
  { a with performance := { throughput := t2, successRate := rate } }

/-- The `priceData` argument of `PriceFeedAccount.updatePrice`, as built by
its callers (`{price, confidence, sources, dataPoints}`, optionally with a
`slot`). -/
structure PriceData where
  price : ℚ
  confidence : ℚ
  sources : List String
  dataPoints : ℕ
  slot : Option ℕ
deriving DecidableEq

/-- Method `PriceFeedAccount.updatePrice(priceData)`: throws when uninitialized;
otherwise merges `priceData` into `currentPrice` (with
`lastUpdateSlot = priceData.slot || 0`), appends the new history entry,
recomputes statistics against the old price, refreshes performance
metrics, stamps `lastUpdated` and bumps `totalUpdates`.  The circuit
breaker state in `this.validation` is neither read nor written anywhere in
this method. -/
def PriceFeedAccount.updatePrice (a : PriceFeedAccount) (pd : PriceData)
    (now : ℕ) : Except String PriceFeedAccount :=
  if a.isInitialized = false then .error "Account not initialized"
  else
    let oldPrice := a.currentPrice.price
    let a1 := { a with currentPrice :=
      { a.currentPrice with
        price := pd.price, confidence := pd.confidence, sources := pd.sources
        dataPoints := pd.dataPoints, lastUpdateSlot := pd.slot.getD 0 } }
    let entry : HistoryEntry :=
      { price := pd.price, timestamp := now, sources := pd.sources
        confidence := pd.confidence }
    let a2 := { a1 with history := a1.history.addToHistory entry }
    let a3 := a2.updateStatistics pd.price oldPrice now
    let a4 := a3.updatePerformanceMetrics now
    .ok { a4 with
      lastUpdated := now
      statistics := { a4.statistics with totalUpdates := a4.statistics.totalUpdates + 1 } }

/-- Method `PriceFeedAccount.getPriceHistory(limit)`: the non-null ring entries,
sorted newest-first by timestamp (the JS comparator `b.timestamp -
a.timestamp`; `Array.prototype.sort` is stable, as is `mergeSort`), cut to
`limit`. -/
def PriceFeedAccount.getPriceHistory (a : PriceFeedAccount) (limit : ℕ) :
    List HistoryEntry :=
  (((a.history.entries.filterMap id).mergeSort
    (fun x y => decide (y.timestamp ≤ x.timestamp))).take limit)

/-- The object literal returned by `PriceFeedAccount.serialize()`.  A
serialized `Decimal` field is its canonical decimal string; since
`new Decimal(d.toString())` reproduces `d` exactly, the string is modelled
by the rational it denotes.  `authority` is `authority?.toString()`
(absent for a null authority). -/
structure SerializedAccount where
  version : ℕ
  isInitialized : Bool
  authority : Option String
  tokenPair : TokenPair
  currentPrice : CurrentPrice
  statistics : Statistics
  lastUpdated : ℕ
deriving DecidableEq

/-- Method `PriceFeedAccount.serializeStatistics()`: spread-copies the statistics
and converts each `Decimal`-valued field to its string.  The conversion is
exact, so on this model it is the identity on the statistics record. -/
def PriceFeedAccount.serializeStatistics (s : Statistics) : Statistics := s

/-- Method `PriceFeedAccount.deserializeStatistics(stats)`: converts each of the
twelve listed decimal fields back from string when truthy.  The strings
produced by `serializeStatistics` are nonempty, hence truthy, and parsing
is exact, so on this model it is also the identity. -/
def PriceFeedAccount.deserializeStatistics (s : Statistics) : Statistics := s

/-- Method `PriceFeedAccount.serialize()`: emits exactly `version`,
`isInitialized`, `authority?.toString()`, `tokenPair`, `currentPrice`
(price stringified), the serialized statistics, and `lastUpdated` —
nothing else (in particular not `createdAt`, not the history ring). -/
def PriceFeedAccount.serialize (a : PriceFeedAccount) : SerializedAccount where
  version := a.version
  isInitialized := a.isInitialized
  authority := a.authority
  tokenPair := a.tokenPair
  currentPrice := a.currentPrice
  statistics := PriceFeedAccount.serializeStatistics a.statistics
  lastUpdated := a.lastUpdated

/-- Method `PriceFeedAccount.deserialize(data)` (static): builds a fresh account
via the constructor and copies `version`, `isInitialized`, `authority`
(`data.authority ? new PublicKey(data.authority) : null`), `tokenPair`,
`currentPrice`, the deserialized statistics and `lastUpdated` — with no
schema or version check of any kind. -/
def PriceFeedAccount.deserialize (d : SerializedAccount) : PriceFeedAccount :=
  { PriceFeedAccount.new with
    version := d.version
    isInitialized := d.isInitialized
    authority := d.authority
    tokenPair := d.tokenPair
    currentPrice := d.currentPrice
    statistics := PriceFeedAccount.deserializeStatistics d.statistics
    lastUpdated := d.lastUpdated }

/-- The `ProgramError` codes of the update-price instruction module. -/
inductive ProgramErr where
  | unauthorized
  | invalidPrice
  | staleData
  | invalidConfidence
  | accountNotInitialized
  | invalidSlot
  | insufficientSources
  | priceTooOld
deriving DecidableEq

/-- The numeric `ProgramError` codes (`0x1001` .. `0x1008`). -/
def ProgramErr.code : ProgramErr → ℕ
  | .unauthorized => 0x1001
  | .invalidPrice => 0x1002
  | .staleData => 0x1003
  | .invalidConfidence => 0x1004
  | .accountNotInitialized => 0x1005
  | .invalidSlot => 0x1006
  | .insufficientSources => 0x1007
  | .priceTooOld => 0x1008

/-- The thrown `Error` message for each validation failure (the
`ProgramError: <code> - <text>` strings of `validateInstructionParams` and
`processUpdatePriceInstruction`). -/
def ProgramErr.message : ProgramErr → String
  | .unauthorized => "ProgramError: 4097 - Invalid authority"
  | .invalidPrice => "ProgramError: 4098 - Price must be positive"
  | .staleData => "ProgramError: 4099 - Stale data"
  | .invalidConfidence => "ProgramError: 4100 - Confidence out of range"
  | .accountNotInitialized => "ProgramError: 4101 - Account not initialized"
  | .invalidSlot => "ProgramError: 4102 - Slot must be positive"
  | .insufficientSources => "ProgramError: 4103 - Insufficient sources"
  | .priceTooOld => "ProgramError: 4104 - Price data is too old"

/-- The `UpdatePriceInstruction` constructor constants:
`maxPriceAge = 300` seconds. -/
def UpdatePriceInstruction.maxPriceAge : ℤ := 300

/-- Constant `minConfidence = new Decimal('0.01')`. -/
def UpdatePriceInstruction.minConfidence : ℚ := 1 / 100

/-- Constant `minSources = 1`. -/
def UpdatePriceInstruction.minSources : ℕ := 1

/-- The parameter object consumed by
`UpdatePriceInstruction.validateInstructionParams`.  `priceFeedAccount`
and `authority` are `PublicKey`s or absent (`!x` falsy checks); `price`
and `confidence` arrive as strings and are parsed by `new Decimal(...)`,
modelled by the rationals they denote; `slot` and `timestamp` are JS
numbers. -/
structure UpdateParams where
  priceFeedAccount : Option String
  authority : Option String
  price : ℚ
  confidence : ℚ
  slot : ℤ
  timestamp : ℤ
  sources : List String
deriving DecidableEq

/-- Method `UpdatePriceInstruction.validateInstructionParams(params)`: the seven
checks, each throwing a distinct `ProgramError`, performed in source
order; `now` stands for `Math.floor(Date.now() / 1000)`. -/
def UpdatePriceInstruction.validateInstructionParams (now : ℤ)
    (p : UpdateParams) : Except ProgramErr Unit :=
  if p.priceFeedAccount = none then .error .accountNotInitialized
  else if p.authority = none then .error .unauthorized
  else if p.price ≤ 0 then .error .invalidPrice
  else if p.confidence < UpdatePriceInstruction.minConfidence ∨ 1 < p.confidence then
    .error .invalidConfidence
  else if p.slot ≤ 0 then .error .invalidSlot
  else if UpdatePriceInstruction.maxPriceAge < now - p.timestamp then .error .priceTooOld
  else if p.sources.length < UpdatePriceInstruction.minSources then
    .error .insufficientSources
  else .ok ()

/-- The decoded `UpdatePriceInstructionData` wire struct. -/
structure UpdatePriceInstructionData where
  instruction : ℕ
  price : ℚ
  confidence : ℚ
  slot : ℤ
  timestamp : ℤ
  sources : List String
deriving DecidableEq

/-- The result object of `processUpdatePriceInstruction` (success flag and
the caught error message, if any). -/
structure ProcessResult where
  success : Bool
  error : Option String
deriving DecidableEq

/-- The dummy account pubkey passed to `validateInstructionParams` by
`processUpdatePriceInstruction`. -/
def UpdatePriceInstruction.dummyAccount : String := "11111111111111111111111111111111"

/-- The `UpdateParams` that `processUpdatePriceInstruction` hands to
`validateInstructionParams` (dummy account key, the instruction
authority, and the decoded instruction fields). -/
def UpdatePriceInstruction.mkValidateParams (authority : String)
    (d : UpdatePriceInstructionData) : UpdateParams :=
  { priceFeedAccount := some UpdatePriceInstruction.dummyAccount
    authority := some authority
    price := d.price, confidence := d.confidence, slot := d.slot
    timestamp := d.timestamp, sources := d.sources }

/-- Method `UpdatePriceInstruction.processUpdatePriceInstruction(params)`
(simulated on-chain logic): authority check, initialization check,
parameter validation, then the `account.updatePrice(...)` call.  The
update call is abstracted as `applyUpd`, returning the account as mutated
so far plus an optional thrown-error message: everything inside the `try`
is caught, returning `success: false` while keeping whatever mutations
already happened.  (On success the JS also sets an `account.lastUpdateSlot`
expando property, folded into `applyUpd` here.) -/
def UpdatePriceInstruction.processUpdatePriceInstruction
    (applyUpd : PriceFeedAccount → PriceFeedAccount × Option String) (now : ℤ)
    (account : PriceFeedAccount) (authority : String)
    (instr : UpdatePriceInstructionData) : ProcessResult × PriceFeedAccount :=
  if account.authority ≠ some authority then
    ({ success := false, error := some ProgramErr.unauthorized.message }, account)
  else if account.isInitialized = false then
    ({ success := false, error := some ProgramErr.accountNotInitialized.message }, account)
  else
    match UpdatePriceInstruction.validateInstructionParams now
        (UpdatePriceInstruction.mkValidateParams authority instr) with
    | .error e => ({ success := false, error := some e.message }, account)
    | .ok _ =>
      let res := applyUpd account
      match res.2 with
      | some m => ({ success := false, error := some m }, res.1)
      | none => ({ success := true, error := none }, res.1)

/-- Method `PriceUpdateInstructionFactory.calculateConfidence(sources)`: 0 for no
sources, 0.5 for one; otherwise the mean absolute deviation from the
average, relative to the average, scaled by 10, subtracted from 1 and
clamped into [0.1, 0.95] by the two successive comparisons of the source.
Sources are modelled by their quoted prices (`new Decimal(s.price || s)`). -/
def PriceUpdateInstructionFactory.calculateConfidence (sources : List ℚ) : ℚ :=
  match sources with
  | [] => 0
  | [_] => 1 / 2
  | prices =>
    let n : ℚ := prices.length
    let avgPrice := prices.sum / n
    let variance := (prices.map (fun p => |p - avgPrice| / avgPrice)).sum / n
    let confidence := 1 - variance * 10
    let clampedLow := if confidence < 1 / 10 then (1 / 10 : ℚ) else confidence
    if 19 / 20 < clampedLow then 19 / 20 else clampedLow

/-- A `lastPrices` map entry as stored by `sendPriceUpdate`
(`{ price, timestamp }`).  The `price` field is the numeric value the
stored object yields after `shouldUpdatePrice`'s extraction
(`x.price || x.value || x`) and `parseFloat`; `none` models a value that
parses to `NaN`. -/
structure LastPrice where
  price : Option ℚ
  timestamp : ℕ
deriving DecidableEq

/-- The keeper-service state consulted by `shouldUpdatePrice`: the
resolved `config.priceThreshold` and the per-token `lastPrices` map. -/
structure KeeperState where
  priceThreshold : ℚ
  lastPrices : String → Option LastPrice

/-- Resolution of `config.priceThreshold || 0.01`: a missing, zero (falsy) setting
resolves to the 1% default. -/
def KeeperService.mkPriceThreshold (c : Option ℚ) : ℚ :=
  match c with
  | none => 1 / 100
  | some v => if v = 0 then 1 / 100 else v

/-- Method `KeeperService.shouldUpdatePrice(token, newPriceData)`: true when no
prior price is recorded; false when either side parses to `NaN`;
otherwise compares `|(new - last) / last|` against the threshold.  The
`newPrice` argument is the post-extraction `parseFloat` result (`none` =
`NaN`).  `Decimal` division by zero yields `±Infinity`, whose absolute
value exceeds any threshold, while `0/0` yields `NaN` and `NaN ≥ θ` is
false — hence the `last = 0` branch. -/
def KeeperService.shouldUpdatePrice (s : KeeperState) (token : String)
    (newPrice : Option ℚ) : Bool :=
  match s.lastPrices token with
  | none => true
  | some last =>
    match newPrice, last.price with
    | some n, some l =>
      if l = 0 then decide (n ≠ 0)
      else decide (s.priceThreshold ≤ |(n - l) / l|)
    | _, _ => false

/-- The `lastPrices` write performed by a successful `sendPriceUpdate`:
`this.lastPrices.set(token, { price, timestamp: Date.now() })`. -/
def KeeperService.recordPriceUpdate (s : KeeperState) (token : String)
    (p : ℚ) (now : ℕ) : KeeperState :=
  { s with lastPrices := fun t =>
      if t = token then some { price := some p, timestamp := now }
      else s.lastPrices t }

/-! ### Preservation lemmas for the account operations -/

/-- Method `update24hStats` leaves the authority unchanged. -/
theorem update24hStats_authority (a : PriceFeedAccount) (t : ℕ) :
    (a.update24hStats t).authority = a.authority := by
  unfold PriceFeedAccount.update24hStats; dsimp only; split <;> rfl

/-- Method `update24hStats` leaves the initialization flag unchanged. -/
theorem update24hStats_isInitialized (a : PriceFeedAccount) (t : ℕ) :
    (a.update24hStats t).isInitialized = a.isInitialized := by
  unfold PriceFeedAccount.update24hStats; dsimp only; split <;> rfl

/-- Method `update24hStats` leaves the validation block unchanged. -/
theorem update24hStats_validation (a : PriceFeedAccount) (t : ℕ) :
    (a.update24hStats t).validation = a.validation := by
  unfold PriceFeedAccount.update24hStats; dsimp only; split <;> rfl

/-- Method `update24hStats` leaves the all-time high unchanged. -/
theorem update24hStats_allTimeHigh (a : PriceFeedAccount) (t : ℕ) :
    (a.update24hStats t).statistics.allTimeHigh = a.statistics.allTimeHigh := by
  unfold PriceFeedAccount.update24hStats; dsimp only; split <;> rfl

/-- Method `update24hStats` leaves the all-time low unchanged. -/
theorem update24hStats_allTimeLow (a : PriceFeedAccount) (t : ℕ) :
    (a.update24hStats t).statistics.allTimeLow = a.statistics.allTimeLow := by
  unfold PriceFeedAccount.update24hStats; dsimp only; split <;> rfl

/-- Method `update24hStats` leaves the current price block unchanged. -/
theorem update24hStats_currentPrice (a : PriceFeedAccount) (t : ℕ) :
    (a.update24hStats t).currentPrice = a.currentPrice := by
  unfold PriceFeedAccount.update24hStats; dsimp only; split <;> rfl

/-- Method `update7dStats` leaves the authority unchanged. -/
theorem update7dStats_authority (a : PriceFeedAccount) (t : ℕ) :
    (a.update7dStats t).authority = a.authority := by
  unfold PriceFeedAccount.update7dStats; dsimp only; split <;> rfl

/-- Method `update7dStats` leaves the initialization flag unchanged. -/
theorem update7dStats_isInitialized (a : PriceFeedAccount) (t : ℕ) :
    (a.update7dStats t).isInitialized = a.isInitialized := by
  unfold PriceFeedAccount.update7dStats; dsimp only; split <;> rfl

/-- Method `update7dStats` leaves the validation block unchanged. -/
theorem update7dStats_validation (a : PriceFeedAccount) (t : ℕ) :
    (a.update7dStats t).validation = a.validation := by
  unfold PriceFeedAccount.update7dStats; dsimp only; split <;> rfl

/-- Method `update7dStats` leaves the all-time high unchanged. -/
theorem update7dStats_allTimeHigh (a : PriceFeedAccount) (t : ℕ) :
    (a.update7dStats t).statistics.allTimeHigh = a.statistics.allTimeHigh := by
  unfold PriceFeedAccount.update7dStats; dsimp only; split <;> rfl

/-- Method `update7dStats` leaves the all-time low unchanged. -/
theorem update7dStats_allTimeLow (a : PriceFeedAccount) (t : ℕ) :
    (a.update7dStats t).statistics.allTimeLow = a.statistics.allTimeLow := by
  unfold PriceFeedAccount.update7dStats; dsimp only; split <;> rfl

/-- Method `update7dStats` leaves the current price block unchanged. -/
theorem update7dStats_currentPrice (a : PriceFeedAccount) (t : ℕ) :
    (a.update7dStats t).currentPrice = a.currentPrice := by
  unfold PriceFeedAccount.update7dStats; dsimp only; split <;> rfl

/-- Method `updateStatistics` leaves the authority unchanged. -/
theorem updateStatistics_authority (a : PriceFeedAccount) (np op : ℚ) (t : ℕ) :
    (a.updateStatistics np op t).authority = a.authority := by
  unfold PriceFeedAccount.updateStatistics; dsimp only
  rw [update7dStats_authority, update24hStats_authority]

/-- Method `updateStatistics` leaves the initialization flag unchanged. -/
theorem updateStatistics_isInitialized (a : PriceFeedAccount) (np op : ℚ) (t : ℕ) :
    (a.updateStatistics np op t).isInitialized = a.isInitialized := by
  unfold PriceFeedAccount.updateStatistics; dsimp only
  rw [update7dStats_isInitialized, update24hStats_isInitialized]

/-- Method `updateStatistics` leaves the validation block (hence the circuit
breaker) unchanged. -/
theorem updateStatistics_validation (a : PriceFeedAccount) (np op : ℚ) (t : ℕ) :
    (a.updateStatistics np op t).validation = a.validation := by
  unfold PriceFeedAccount.updateStatistics; dsimp only
  rw [update7dStats_validation, update24hStats_validation]

/-- Method `updateStatistics` leaves the current price block unchanged. -/
theorem updateStatistics_currentPrice (a : PriceFeedAccount) (np op : ℚ) (t : ℕ) :
    (a.updateStatistics np op t).currentPrice = a.currentPrice := by
  unfold PriceFeedAccount.updateStatistics; dsimp only
  rw [update7dStats_currentPrice, update24hStats_currentPrice]

/-- After `updateStatistics` the all-time high dominates its previous
value and the new sample. -/
theorem updateStatistics_allTimeHigh_bounds (a : PriceFeedAccount) (np op : ℚ) (t : ℕ) :
    a.statistics.allTimeHigh ≤ (a.updateStatistics np op t).statistics.allTimeHigh ∧
    np ≤ (a.updateStatistics np op t).statistics.allTimeHigh := by
  have hH : ((a.update24hStats t).update7dStats t).statistics.allTimeHigh
      = a.statistics.allTimeHigh := by
    rw [update7dStats_allTimeHigh, update24hStats_allTimeHigh]
  have hL : ((a.update24hStats t).update7dStats t).statistics.allTimeLow
      = a.statistics.allTimeLow := by
    rw [update7dStats_allTimeLow, update24hStats_allTimeLow]
  unfold PriceFeedAccount.updateStatistics; dsimp only
  set s0 := ((a.update24hStats t).update7dStats t).statistics with hs0
  split_ifs <;> (try dsimp only) <;> constructor <;> linarith [hH, hL]

/-- After `updateStatistics` the all-time low is below its previous value
and the new sample. -/
theorem updateStatistics_allTimeLow_bounds (a : PriceFeedAccount) (np op : ℚ) (t : ℕ) :
    (a.updateStatistics np op t).statistics.allTimeLow ≤ a.statistics.allTimeLow ∧
    (a.updateStatistics np op t).statistics.allTimeLow ≤ np := by
  have hH : ((a.update24hStats t).update7dStats t).statistics.allTimeHigh
      = a.statistics.allTimeHigh := by
    rw [update7dStats_allTimeHigh, update24hStats_allTimeHigh]
  have hL : ((a.update24hStats t).update7dStats t).statistics.allTimeLow
      = a.statistics.allTimeLow := by
    rw [update7dStats_allTimeLow, update24hStats_allTimeLow]
  unfold PriceFeedAccount.updateStatistics; dsimp only
  set s0 := ((a.update24hStats t).update7dStats t).statistics with hs0
  split_ifs <;> (try dsimp only) <;> constructor <;> linarith [hH, hL]

/-- Method `updatePerformanceMetrics` only rewrites the performance block. -/
theorem updatePerformanceMetrics_authority (a : PriceFeedAccount) (t : ℕ) :
    (a.updatePerformanceMetrics t).authority = a.authority := rfl

/-- Method `updatePerformanceMetrics` keeps the initialization flag. -/
theorem updatePerformanceMetrics_isInitialized (a : PriceFeedAccount) (t : ℕ) :
    (a.updatePerformanceMetrics t).isInitialized = a.isInitialized := rfl

/-- Method `updatePerformanceMetrics` keeps the validation block. -/
theorem updatePerformanceMetrics_validation (a : PriceFeedAccount) (t : ℕ) :
    (a.updatePerformanceMetrics t).validation = a.validation := rfl

/-- Method `updatePerformanceMetrics` keeps the statistics block. -/
theorem updatePerformanceMetrics_statistics (a : PriceFeedAccount) (t : ℕ) :
    (a.updatePerformanceMetrics t).statistics = a.statistics := rfl

/-- Method `updatePerformanceMetrics` keeps the current price block. -/
theorem updatePerformanceMetrics_currentPrice (a : PriceFeedAccount) (t : ℕ) :
    (a.updatePerformanceMetrics t).currentPrice = a.currentPrice := rfl

/-- On an initialized account `updatePrice` always succeeds; the result
keeps the authority, the initialization flag and the whole validation
block (the circuit breaker included), moves the all-time statistics
monotonically, and stores the submitted price as the current price. -/
theorem updatePrice_ok (a : PriceFeedAccount) (pd : PriceData) (now : ℕ)
    (h : a.isInitialized = true) :
    ∃ b, a.updatePrice pd now = .ok b ∧
      b.authority = a.authority ∧ b.isInitialized = true ∧
      b.validation = a.validation ∧
      a.statistics.allTimeHigh ≤ b.statistics.allTimeHigh ∧
      pd.price ≤ b.statistics.allTimeHigh ∧
      b.statistics.allTimeLow ≤ a.statistics.allTimeLow ∧
      b.statistics.allTimeLow ≤ pd.price ∧
      b.currentPrice.price = pd.price := by
  unfold PriceFeedAccount.updatePrice
  have hcond : ¬(a.isInitialized = false) := by rw [h]; simp
  rw [if_neg hcond]
  dsimp only
  refine ⟨_, rfl, ?_, ?_, ?_, ?_, ?_, ?_, ?_, ?_⟩
  · dsimp only
    rw [updatePerformanceMetrics_authority, updateStatistics_authority]
  · dsimp only
    rw [updatePerformanceMetrics_isInitialized, updateStatistics_isInitialized]
    exact h
  · dsimp only
    rw [updatePerformanceMetrics_validation, updateStatistics_validation]
  · dsimp only
    rw [updatePerformanceMetrics_statistics]
    exact (updateStatistics_allTimeHigh_bounds _ pd.price a.currentPrice.price now).1
  · dsimp only
    rw [updatePerformanceMetrics_statistics]
    exact (updateStatistics_allTimeHigh_bounds _ pd.price a.currentPrice.price now).2
  · dsimp only
    rw [updatePerformanceMetrics_statistics]
    exact (updateStatistics_allTimeLow_bounds _ pd.price a.currentPrice.price now).1
  · dsimp only
    rw [updatePerformanceMetrics_statistics]
    exact (updateStatistics_allTimeLow_bounds _ pd.price a.currentPrice.price now).2
  · dsimp only
    rw [updatePerformanceMetrics_currentPrice, updateStatistics_currentPrice]

/-! ### Claims C1, C2, C5, C7 -/

/-- Claim C1, counterexample: `initialize` called a second time on an
already-initialized account does not fail (there is no `AlreadyInitialized`
error path in the source), and it overwrites the authority: after
initializing with authority `AUTH1` and re-initializing with `AUTH2`, the
account is still initialized and its authority has changed to `AUTH2`. -/
theorem initialize_twice_no_failure_and_authority_overwritten :
    ( PriceFeedAccount.initialize ( PriceFeedAccount.initialize PriceFeedAccount.new "SOL/USDC" "AUTH1" "PROG" 100)
      "SOL/USDC" "AUTH2" "PROG" 200).isInitialized = true ∧
    ( PriceFeedAccount.initialize PriceFeedAccount.new "SOL/USDC" "AUTH1" "PROG" 100).authority
      = some "AUTH1" ∧
    ( PriceFeedAccount.initialize ( PriceFeedAccount.initialize PriceFeedAccount.new "SOL/USDC" "AUTH1" "PROG" 100)
      "SOL/USDC" "AUTH2" "PROG" 200).authority = some "AUTH2" :=
  ⟨rfl, rfl, rfl⟩

/-- Claim C1 (amended): `initialize` performs no already-initialized
check — every call (first or repeated) succeeds, sets `isInitialized` to
true and stores the given authority; the authority is immutable only under
`updatePrice`, which never changes `authority` or `isInitialized`. -/
theorem initialize_unconditional_and_updatePrice_preserves_authority
    (a : PriceFeedAccount) (pairId auth prog : String) (now : ℕ)
    (pd : PriceData) (t : ℕ) (h : a.isInitialized = true) :
    (( PriceFeedAccount.initialize a pairId auth prog now).isInitialized = true ∧
      ( PriceFeedAccount.initialize a pairId auth prog now).authority = some auth) ∧
    ∃ b, a.updatePrice pd t = .ok b ∧ b.authority = a.authority ∧
      b.isInitialized = true := by
  obtain ⟨b, hb, h1, h2, _⟩ := updatePrice_ok a pd t h
  exact ⟨⟨rfl, rfl⟩, b, hb, h1, h2⟩

/-- Witness for the amended C1 theorem at a concrete account. -/
theorem initialize_unconditional_and_updatePrice_preserves_authority_witness :
    ( PriceFeedAccount.initialize PriceFeedAccount.new "SOL/USDC" "AUTH1" "PROG" 100).isInitialized = true ∧
    ((( PriceFeedAccount.initialize ( PriceFeedAccount.initialize PriceFeedAccount.new "SOL/USDC" "AUTH1" "PROG" 100)
        "SOL/USDC" "AUTH2" "PROG" 200).isInitialized = true ∧
      ( PriceFeedAccount.initialize ( PriceFeedAccount.initialize PriceFeedAccount.new "SOL/USDC" "AUTH1" "PROG" 100)
        "SOL/USDC" "AUTH2" "PROG" 200).authority = some "AUTH2") ∧
    ∃ b, ( PriceFeedAccount.initialize PriceFeedAccount.new "SOL/USDC" "AUTH1" "PROG" 100).updatePrice
        ⟨42, 90, ["okx"], 1, none⟩ 300 = .ok b ∧
      b.authority = ( PriceFeedAccount.initialize PriceFeedAccount.new "SOL/USDC" "AUTH1" "PROG" 100).authority ∧
      b.isInitialized = true) :=
  ⟨rfl, initialize_unconditional_and_updatePrice_preserves_authority
    ( PriceFeedAccount.initialize PriceFeedAccount.new "SOL/USDC" "AUTH1" "PROG" 100)
    "SOL/USDC" "AUTH2" "PROG" 200 ⟨42, 90, ["okx"], 1, none⟩ 300 rfl⟩

/-- An initialized account whose circuit breaker has been forced open
(`isBroken = true`, error count past the threshold). -/
def brokenBreakerAccount : PriceFeedAccount :=
  let base := PriceFeedAccount.initialize PriceFeedAccount.new "SOL/USDC" "AUTH" "PROG" 100
  { base with validation := { base.validation with circuitBreaker := { base.validation.circuitBreaker with isBroken := true, currentErrors := 7 } } }

/-- Claim C2, counterexample: with the circuit breaker open
(`isBroken = true`), `updatePrice` is not rejected — it succeeds, applies
the new price, bumps the update counter, and leaves the breaker state
untouched.  No `CircuitOpenError` exists in the source. -/
theorem updatePrice_succeeds_with_open_circuit_breaker :
    brokenBreakerAccount.validation.circuitBreaker.isBroken = true ∧
    ((brokenBreakerAccount.updatePrice ⟨42, 90, ["okx"], 1, none⟩ 200).toOption.map
      (fun b => (b.currentPrice.price, b.validation.circuitBreaker.isBroken,
        b.statistics.totalUpdates)))
      = some (42, true, 1) := by
  exact ⟨rfl, by decide⟩

/-- Claim C2 (amended): the circuit-breaker record exists with the
documented defaults (`errorThreshold = 5`, `timeWindow = 60000`,
`recoveryTime = 300000`, initially closed), but no account operation
consults or mutates it: `updatePrice` succeeds on an initialized account
regardless of `isBroken` and returns the validation block unchanged, and
`initialize` leaves it unchanged as well. -/
theorem updatePrice_ignores_circuit_breaker (a : PriceFeedAccount)
    (pd : PriceData) (now : ℕ) (h : a.isInitialized = true) :
    (∃ b, a.updatePrice pd now = .ok b ∧ b.validation = a.validation ∧
      b.currentPrice.price = pd.price) ∧
    (∀ pid au pr t, ( PriceFeedAccount.initialize a pid au pr t).validation = a.validation) ∧
    PriceFeedAccount.new.validation.circuitBreaker =
      { enabled := true, errorThreshold := 5, timeWindow := 60000, recoveryTime := 300000, currentErrors := 0, lastError := 0, isBroken := false } := by
  obtain ⟨b, hb, _, _, hval, _, _, _, _, hp⟩ := updatePrice_ok a pd now h
  exact ⟨⟨b, hb, hval, hp⟩, fun _ _ _ _ => rfl, rfl⟩

/-- Witness for the amended C2 theorem at the open-breaker account. -/
theorem updatePrice_ignores_circuit_breaker_witness :
    brokenBreakerAccount.isInitialized = true ∧
    ((∃ b, brokenBreakerAccount.updatePrice ⟨42, 90, ["okx"], 1, none⟩ 200 = .ok b ∧
      b.validation = brokenBreakerAccount.validation ∧ b.currentPrice.price = 42) ∧
    (∀ pid au pr t, ( PriceFeedAccount.initialize brokenBreakerAccount pid au pr t).validation
      = brokenBreakerAccount.validation) ∧
    PriceFeedAccount.new.validation.circuitBreaker =
      { enabled := true, errorThreshold := 5, timeWindow := 60000, recoveryTime := 300000, currentErrors := 0, lastError := 0, isBroken := false }) :=
  ⟨rfl, updatePrice_ignores_circuit_breaker brokenBreakerAccount
    ⟨42, 90, ["okx"], 1, none⟩ 200 rfl⟩

/-- Claim C5: for every `PriceFeedAccount` `x`,
`deserialize(serialize(x))` re-serializes to exactly the original
serialization of `x` — serialize picks a fixed field set, deserialize
restores precisely those fields onto a fresh account, and the decimal
string conversions are exact. -/
theorem serialize_deserialize_exact_roundTrip (x : PriceFeedAccount) :
    (PriceFeedAccount.deserialize x.serialize).serialize = x.serialize := rfl

/-- Claim C7, counterexample: `deserialize` accepts a payload whose
version field (99) is unknown/newer than the schema version (1) and
simply copies all fields under the fixed layout — there is no
`UnsupportedVersion` rejection in the source. -/
theorem deserialize_accepts_future_version :
    (PriceFeedAccount.deserialize
      { ( PriceFeedAccount.initialize PriceFeedAccount.new "SOL/USDC" "AUTH" "PROG" 5).serialize with version := 99 }).version = 99 ∧
    (PriceFeedAccount.deserialize
      { ( PriceFeedAccount.initialize PriceFeedAccount.new "SOL/USDC" "AUTH" "PROG" 5).serialize with version := 99 }).isInitialized = true ∧
    (PriceFeedAccount.deserialize
      { ( PriceFeedAccount.initialize PriceFeedAccount.new "SOL/USDC" "AUTH" "PROG" 5).serialize with version := 99 }).authority = some "AUTH" :=
  ⟨rfl, rfl, rfl⟩

/-- Claim C7 (amended): `deserialize` performs no version check at all; it
copies the version field verbatim and decodes every other field under the
single fixed layout, whatever the version value is. -/
theorem deserialize_no_version_check (d : SerializedAccount) :
    (PriceFeedAccount.deserialize d).version = d.version ∧
    (PriceFeedAccount.deserialize d).isInitialized = d.isInitialized ∧
    (PriceFeedAccount.deserialize d).authority = d.authority ∧
    (PriceFeedAccount.deserialize d).currentPrice = d.currentPrice ∧
    (PriceFeedAccount.deserialize d).statistics = d.statistics ∧
    (PriceFeedAccount.deserialize d).lastUpdated = d.lastUpdated :=
  ⟨rfl, rfl, rfl, rfl, rfl, rfl⟩

/-! ### Claim C9: monotone all-time statistics -/

/-- A sequence of `updatePrice` calls (sample and timestamp each), as the
keeper produces them; a throwing call leaves the account as it was
(callers catch the exception). -/
def runUpdates (a : PriceFeedAccount) (l : List (PriceData × ℕ)) : PriceFeedAccount :=
  l.foldl (fun acc x =>
    match acc.updatePrice x.1 x.2 with
    | .ok b => b
    | .error _ => acc) a

/-- Along any update sequence on an initialized account, the account stays
initialized, the all-time high never decreases and the all-time low never
increases. -/
theorem runUpdates_mono (l : List (PriceData × ℕ)) :
    ∀ a : PriceFeedAccount, a.isInitialized = true →
    (runUpdates a l).isInitialized = true ∧
    a.statistics.allTimeHigh ≤ (runUpdates a l).statistics.allTimeHigh ∧
    (runUpdates a l).statistics.allTimeLow ≤ a.statistics.allTimeLow := by
  induction l with
  | nil => exact fun a h => ⟨h, le_refl _, le_refl _⟩
  | cons x xs ih =>
    intro a h
    obtain ⟨b, hb, _, hbinit, _, hATH, _, hATL, _, _⟩ := updatePrice_ok a x.1 x.2 h
    have hstep : runUpdates a (x :: xs) = runUpdates b xs := by
      unfold runUpdates
      dsimp only [List.foldl]
      rw [hb]
    rw [hstep]
    obtain ⟨i1, i2, i3⟩ := ih b hbinit
    exact ⟨i1, le_trans hATH i2, le_trans i3 hATL⟩

/-- After any update sequence on an initialized account, the all-time high
dominates every recorded sample price and the all-time low is below every
recorded sample price. -/
theorem runUpdates_member_bounds (l : List (PriceData × ℕ)) :
    ∀ a : PriceFeedAccount, a.isInitialized = true → ∀ x ∈ l,
    x.1.price ≤ (runUpdates a l).statistics.allTimeHigh ∧
    (runUpdates a l).statistics.allTimeLow ≤ x.1.price := by
  induction l with
  | nil => intro a _ x hx; cases hx
  | cons y ys ih =>
    intro a h x hx
    obtain ⟨b, hb, _, hbinit, _, _, hATHpd, _, hATLpd, _⟩ := updatePrice_ok a y.1 y.2 h
    have hstep : runUpdates a (y :: ys) = runUpdates b ys := by
      unfold runUpdates
      dsimp only [List.foldl]
      rw [hb]
    rw [hstep]
    rcases List.mem_cons.mp hx with rfl | hx2
    · obtain ⟨_, m2, m3⟩ := runUpdates_mono ys b hbinit
      exact ⟨le_trans hATHpd m2, le_trans m3 hATLpd⟩
    · exact ih b hbinit x hx2

/-- Claim C9: across every sequence of `updatePrice` calls on an
initialized account, `statistics.allTimeHigh` is monotonically
non-decreasing and `statistics.allTimeLow` monotonically non-increasing
(shown over an arbitrary prefix split), and after the whole sequence the
all-time high is ≥ every recorded sample price and the all-time low ≤
every recorded sample price. -/
theorem allTime_high_low_monotone (a : PriceFeedAccount)
    (h : a.isInitialized = true) (l1 l2 : List (PriceData × ℕ)) :
    (runUpdates a l1).statistics.allTimeHigh
      ≤ (runUpdates a (l1 ++ l2)).statistics.allTimeHigh ∧
    (runUpdates a (l1 ++ l2)).statistics.allTimeLow
      ≤ (runUpdates a l1).statistics.allTimeLow ∧
    ∀ x ∈ l1 ++ l2,
      x.1.price ≤ (runUpdates a (l1 ++ l2)).statistics.allTimeHigh ∧
      (runUpdates a (l1 ++ l2)).statistics.allTimeLow ≤ x.1.price := by
  have hfold : runUpdates a (l1 ++ l2) = runUpdates (runUpdates a l1) l2 := by
    unfold runUpdates
    exact List.foldl_append _ _ _ _
  obtain ⟨hinit1, _, _⟩ := runUpdates_mono l1 a h
  obtain ⟨_, m2, m3⟩ := runUpdates_mono l2 (runUpdates a l1) hinit1
  refine ⟨?_, ?_, runUpdates_member_bounds (l1 ++ l2) a h⟩
  · rw [hfold]; exact m2
  · rw [hfold]; exact m3

/-- A concretely initialized account shared by the witnesses below. -/
def initAccount : PriceFeedAccount :=
  PriceFeedAccount.initialize PriceFeedAccount.new "SOL/USDC" "AUTH" "PROG" 100

/-- First concrete update sequence for the C9 witness. -/
def sampleSeq1 : List (PriceData × ℕ) := [(⟨50, 90, ["okx"], 1, none⟩, 10)]

/-- Second concrete update sequence for the C9 witness. -/
def sampleSeq2 : List (PriceData × ℕ) := [(⟨60, 91, ["okx"], 1, none⟩, 20)]

/-- Witness for the C9 theorem at a concrete account and concrete
one-sample sequences. -/
theorem allTime_high_low_monotone_witness :
    initAccount.isInitialized = true ∧
    ((runUpdates initAccount sampleSeq1).statistics.allTimeHigh
      ≤ (runUpdates initAccount (sampleSeq1 ++ sampleSeq2)).statistics.allTimeHigh ∧
    (runUpdates initAccount (sampleSeq1 ++ sampleSeq2)).statistics.allTimeLow
      ≤ (runUpdates initAccount sampleSeq1).statistics.allTimeLow ∧
    ∀ x ∈ sampleSeq1 ++ sampleSeq2,
      x.1.price ≤ (runUpdates initAccount (sampleSeq1 ++ sampleSeq2)).statistics.allTimeHigh ∧
      (runUpdates initAccount (sampleSeq1 ++ sampleSeq2)).statistics.allTimeLow ≤ x.1.price) :=
  ⟨rfl, allTime_high_low_monotone initAccount rfl sampleSeq1 sampleSeq2⟩

/-! ### Claim C3: ordered fail-fast validation, no partial state -/

/-- The seven validation checks fail exactly in source order: each error
kind is reported iff its own check fails and every earlier check passed. -/
theorem validateInstructionParams_characterization (now : ℤ) (p : UpdateParams) :
    (UpdatePriceInstruction.validateInstructionParams now p = .error .accountNotInitialized
      ↔ p.priceFeedAccount = none) ∧
    (UpdatePriceInstruction.validateInstructionParams now p = .error .unauthorized
      ↔ ¬p.priceFeedAccount = none ∧ p.authority = none) ∧
    (UpdatePriceInstruction.validateInstructionParams now p = .error .invalidPrice
      ↔ ¬p.priceFeedAccount = none ∧ ¬p.authority = none ∧ p.price ≤ 0) ∧
    (UpdatePriceInstruction.validateInstructionParams now p = .error .invalidConfidence
      ↔ ¬p.priceFeedAccount = none ∧ ¬p.authority = none ∧ ¬p.price ≤ 0 ∧
        (p.confidence < UpdatePriceInstruction.minConfidence ∨ 1 < p.confidence)) ∧
    (UpdatePriceInstruction.validateInstructionParams now p = .error .invalidSlot
      ↔ ¬p.priceFeedAccount = none ∧ ¬p.authority = none ∧ ¬p.price ≤ 0 ∧
        ¬(p.confidence < UpdatePriceInstruction.minConfidence ∨ 1 < p.confidence) ∧
        p.slot ≤ 0) ∧
    (UpdatePriceInstruction.validateInstructionParams now p = .error .priceTooOld
      ↔ ¬p.priceFeedAccount = none ∧ ¬p.authority = none ∧ ¬p.price ≤ 0 ∧
        ¬(p.confidence < UpdatePriceInstruction.minConfidence ∨ 1 < p.confidence) ∧
        ¬p.slot ≤ 0 ∧ UpdatePriceInstruction.maxPriceAge < now - p.timestamp) ∧
    (UpdatePriceInstruction.validateInstructionParams now p = .error .insufficientSources
      ↔ ¬p.priceFeedAccount = none ∧ ¬p.authority = none ∧ ¬p.price ≤ 0 ∧
        ¬(p.confidence < UpdatePriceInstruction.minConfidence ∨ 1 < p.confidence) ∧
        ¬p.slot ≤ 0 ∧ ¬UpdatePriceInstruction.maxPriceAge < now - p.timestamp ∧
        p.sources.length < UpdatePriceInstruction.minSources) := by
  unfold UpdatePriceInstruction.validateInstructionParams
  split_ifs <;> simp_all

/-- When parameter validation throws, `processUpdatePriceInstruction`
catches the error, reports failure and returns the account unchanged, for
any update behaviour. -/
theorem processUpdate_validation_error
    (applyUpd : PriceFeedAccount → PriceFeedAccount × Option String) (now : ℤ)
    (account : PriceFeedAccount) (authority : String)
    (instr : UpdatePriceInstructionData) (e : ProgramErr)
    (hv : UpdatePriceInstruction.validateInstructionParams now
      (UpdatePriceInstruction.mkValidateParams authority instr) = .error e) :
    (UpdatePriceInstruction.processUpdatePriceInstruction applyUpd now account
      authority instr).1.success = false ∧
    (UpdatePriceInstruction.processUpdatePriceInstruction applyUpd now account
      authority instr).2 = account := by
  unfold UpdatePriceInstruction.processUpdatePriceInstruction
  split_ifs with hA hI
  · exact ⟨rfl, rfl⟩
  · exact ⟨rfl, rfl⟩
  · rw [hv]
    exact ⟨rfl, rfl⟩

/-- Claim C3: each validation check fails with its own distinct error
kind, in the fixed source order (an error is reported iff its check fails
and every earlier check passed — fail fast), and whenever validation
fails (in particular for a non-positive price),
`processUpdatePriceInstruction` reports failure and returns the target
account completely unchanged, whatever the update behaviour `applyUpd`
would have done. -/
theorem update_validation_fail_fast_distinct_and_no_partial_state
    (now : ℤ) (p : UpdateParams)
    (applyUpd : PriceFeedAccount → PriceFeedAccount × Option String)
    (account : PriceFeedAccount) (authority : String)
    (instr : UpdatePriceInstructionData)
    (hfail : (UpdatePriceInstruction.validateInstructionParams now
      (UpdatePriceInstruction.mkValidateParams authority instr)).isOk = false) :
    ([ProgramErr.accountNotInitialized.code, ProgramErr.unauthorized.code,
      ProgramErr.invalidPrice.code, ProgramErr.invalidConfidence.code,
      ProgramErr.invalidSlot.code, ProgramErr.priceTooOld.code,
      ProgramErr.insufficientSources.code] : List ℕ).Nodup ∧
    (UpdatePriceInstruction.validateInstructionParams now p = .error .accountNotInitialized
      ↔ p.priceFeedAccount = none) ∧
    (UpdatePriceInstruction.validateInstructionParams now p = .error .unauthorized
      ↔ ¬p.priceFeedAccount = none ∧ p.authority = none) ∧
    (UpdatePriceInstruction.validateInstructionParams now p = .error .invalidPrice
      ↔ ¬p.priceFeedAccount = none ∧ ¬p.authority = none ∧ p.price ≤ 0) ∧
    (UpdatePriceInstruction.validateInstructionParams now p = .error .invalidConfidence
      ↔ ¬p.priceFeedAccount = none ∧ ¬p.authority = none ∧ ¬p.price ≤ 0 ∧
        (p.confidence < UpdatePriceInstruction.minConfidence ∨ 1 < p.confidence)) ∧
    (UpdatePriceInstruction.validateInstructionParams now p = .error .invalidSlot
      ↔ ¬p.priceFeedAccount = none ∧ ¬p.authority = none ∧ ¬p.price ≤ 0 ∧
        ¬(p.confidence < UpdatePriceInstruction.minConfidence ∨ 1 < p.confidence) ∧
        p.slot ≤ 0) ∧
    (UpdatePriceInstruction.validateInstructionParams now p = .error .priceTooOld
      ↔ ¬p.priceFeedAccount = none ∧ ¬p.authority = none ∧ ¬p.price ≤ 0 ∧
        ¬(p.confidence < UpdatePriceInstruction.minConfidence ∨ 1 < p.confidence) ∧
        ¬p.slot ≤ 0 ∧ UpdatePriceInstruction.maxPriceAge < now - p.timestamp) ∧
    (UpdatePriceInstruction.validateInstructionParams now p = .error .insufficientSources
      ↔ ¬p.priceFeedAccount = none ∧ ¬p.authority = none ∧ ¬p.price ≤ 0 ∧
        ¬(p.confidence < UpdatePriceInstruction.minConfidence ∨ 1 < p.confidence) ∧
        ¬p.slot ≤ 0 ∧ ¬UpdatePriceInstruction.maxPriceAge < now - p.timestamp ∧
        p.sources.length < UpdatePriceInstruction.minSources) ∧
    ((UpdatePriceInstruction.processUpdatePriceInstruction applyUpd now account
        authority instr).1.success = false ∧
      (UpdatePriceInstruction.processUpdatePriceInstruction applyUpd now account
        authority instr).2 = account) := by
  obtain ⟨c1, c2, c3, c4, c5, c6, c7⟩ := validateInstructionParams_characterization now p
  refine ⟨by decide, c1, c2, c3, c4, c5, c6, c7, ?_⟩
  cases hv : UpdatePriceInstruction.validateInstructionParams now
      (UpdatePriceInstruction.mkValidateParams authority instr) with
  | ok u =>
    rw [hv] at hfail
    exact absurd hfail (by simp [Except.isOk, Except.toBool])
  | error e =>
    exact processUpdate_validation_error applyUpd now account authority instr e hv

/-- Witness for the C3 theorem: a concrete instruction with price −1 fails
validation (`INVALID_PRICE`) and leaves a concrete account unchanged. -/
theorem update_validation_fail_fast_distinct_and_no_partial_state_witness :
    (UpdatePriceInstruction.validateInstructionParams 1000
      (UpdatePriceInstruction.mkValidateParams "AUTH" ⟨0, -1, 1/2, 5, 1000, ["okx"]⟩)).isOk = false ∧
    ((UpdatePriceInstruction.processUpdatePriceInstruction (fun a => (a, none)) 1000
      initAccount "AUTH" ⟨0, -1, 1/2, 5, 1000, ["okx"]⟩).1.success = false ∧
    (UpdatePriceInstruction.processUpdatePriceInstruction (fun a => (a, none)) 1000
      initAccount "AUTH" ⟨0, -1, 1/2, 5, 1000, ["okx"]⟩).2 = initAccount) :=
  ⟨by decide, (update_validation_fail_fast_distinct_and_no_partial_state 1000
    (UpdatePriceInstruction.mkValidateParams "AUTH" ⟨0, -1, 1/2, 5, 1000, ["okx"]⟩)
    (fun a => (a, none)) initAccount "AUTH" ⟨0, -1, 1/2, 5, 1000, ["okx"]⟩
    (by decide)).2.2.2.2.2.2.2.2⟩

/-! ### Claim C6: the aggregator confidence formula -/

/-- The spec-side quantity: mean absolute deviation from the average,
relative to the average. -/
def meanAbsRelDeviation (ps : List ℚ) : ℚ :=
  ((ps.map (fun p => |p - ps.sum / (ps.length : ℚ)| / (ps.sum / (ps.length : ℚ)))).sum)
    / (ps.length : ℚ)

/-- The spec-side clamp. -/
def clampSpec (x lo hi : ℚ) : ℚ := min hi (max lo x)

/-- On two or more sources, the code's confidence computation is exactly
`clamp(1 − 10·meanAbsoluteRelativeDeviation, 0.1, 0.95)`. -/
theorem calculateConfidence_cons_cons (a b : ℚ) (t : List ℚ) :
    PriceUpdateInstructionFactory.calculateConfidence (a :: b :: t)
      = clampSpec (1 - 10 * meanAbsRelDeviation (a :: b :: t)) (1 / 10) (19 / 20) := by
  unfold PriceUpdateInstructionFactory.calculateConfidence meanAbsRelDeviation clampSpec
  dsimp only
  rw [show ∀ v : ℚ, 1 - v * 10 = 1 - 10 * v from fun v => by ring]
  set x := 1 - 10 * (((a :: b :: t).map
    (fun p => |p - (a :: b :: t).sum / ((a :: b :: t).length : ℚ)|
      / ((a :: b :: t).sum / ((a :: b :: t).length : ℚ)))).sum
        / ((a :: b :: t).length : ℚ)) with hx
  rcases le_or_lt (1 / 10 : ℚ) x with h1 | h1
  · rw [if_neg (not_lt.mpr h1), max_eq_right h1]
    rcases le_or_lt x (19 / 20) with h2 | h2
    · rw [if_neg (not_lt.mpr h2), min_eq_right h2]
    · rw [if_pos h2, min_eq_left (le_of_lt h2)]
  · rw [if_pos h1, if_neg (by norm_num : ¬(19 / 20 : ℚ) < 1 / 10),
      max_eq_left (le_of_lt h1), min_eq_right (by norm_num : (1 / 10 : ℚ) ≤ 19 / 20)]

/-- Any list of length at least two starts with two cons cells. -/
theorem calculateConfidence_of_two_le (ps : List ℚ) (h : 2 ≤ ps.length) :
    PriceUpdateInstructionFactory.calculateConfidence ps
      = clampSpec (1 - 10 * meanAbsRelDeviation ps) (1 / 10) (19 / 20) := by
  match ps, h with
  | a :: b :: t, _ => exact calculateConfidence_cons_cons a b t

/-- For identical nonzero quotes the mean absolute relative deviation
vanishes. -/
theorem meanAbsRelDeviation_replicate (n : ℕ) (q : ℚ) (hn : 2 ≤ n) :
    meanAbsRelDeviation (List.replicate n q) = 0 := by
  have hn0 : (n : ℚ) ≠ 0 := Nat.cast_ne_zero.mpr (by omega)
  have hsum : (List.replicate n q).sum = (n : ℚ) * q := by
    simp [List.sum_replicate, nsmul_eq_mul]
  have hlen : ((List.replicate n q).length : ℚ) = (n : ℚ) := by simp
  have havg : (List.replicate n q).sum / ((List.replicate n q).length : ℚ) = q := by
    rw [hsum, hlen, mul_comm, mul_div_assoc, div_self hn0, mul_one]
  have hmap : (List.replicate n q).map
      (fun p => |p - (List.replicate n q).sum / ((List.replicate n q).length : ℚ)|
        / ((List.replicate n q).sum / ((List.replicate n q).length : ℚ)))
      = List.replicate n 0 := by
    rw [List.map_replicate, havg, sub_self, abs_zero, zero_div]
  unfold meanAbsRelDeviation
  rw [hmap, List.sum_replicate, smul_zero, zero_div]

/-- Claim C6: the aggregator confidence is 0 for zero sources, exactly 0.5
for one source, and for two or more sources equals
`clamp(1 − 10·meanAbsoluteRelativeDeviation, 0.1, 0.95)`; for identical
positive quotes it equals the 0.95 ceiling, and tighter agreement (smaller
deviation) never yields lower confidence. -/
theorem calculateConfidence_spec (ps qs : List ℚ) (n : ℕ) (q : ℚ)
    (hlen : 2 ≤ ps.length) (hlen2 : 2 ≤ qs.length) (hn : 2 ≤ n) (hq : 0 < q)
    (hmard : meanAbsRelDeviation ps ≤ meanAbsRelDeviation qs) :
    PriceUpdateInstructionFactory.calculateConfidence [] = 0 ∧
    (∀ x : ℚ, PriceUpdateInstructionFactory.calculateConfidence [x] = 1 / 2) ∧
    PriceUpdateInstructionFactory.calculateConfidence ps
      = clampSpec (1 - 10 * meanAbsRelDeviation ps) (1 / 10) (19 / 20) ∧
    PriceUpdateInstructionFactory.calculateConfidence (List.replicate n q) = 19 / 20 ∧
    PriceUpdateInstructionFactory.calculateConfidence qs
      ≤ PriceUpdateInstructionFactory.calculateConfidence ps := by
  have hrep : PriceUpdateInstructionFactory.calculateConfidence (List.replicate n q)
      = 19 / 20 := by
    have hlenrep : 2 ≤ (List.replicate n q).length := by simp [hn]
    rw [calculateConfidence_of_two_le _ hlenrep,
      meanAbsRelDeviation_replicate n q hn, mul_zero, sub_zero]
    unfold clampSpec
    rw [max_eq_right (by norm_num : (1 / 10 : ℚ) ≤ 1),
      min_eq_left (by norm_num : (19 / 20 : ℚ) ≤ 1)]
  have hmono : PriceUpdateInstructionFactory.calculateConfidence qs
      ≤ PriceUpdateInstructionFactory.calculateConfidence ps := by
    rw [calculateConfidence_of_two_le ps hlen, calculateConfidence_of_two_le qs hlen2]
    unfold clampSpec
    exact min_le_min (le_refl _) (max_le_max (le_refl _) (by linarith))
  exact ⟨rfl, fun x => rfl, calculateConfidence_of_two_le ps hlen, hrep, hmono⟩

/-- Witness for the C6 theorem at concrete quote lists. -/
theorem calculateConfidence_spec_witness :
    2 ≤ ([1, 2] : List ℚ).length ∧ 2 ≤ ([1, 3] : List ℚ).length ∧
    (0 : ℚ) < 5 ∧ meanAbsRelDeviation [1, 2] ≤ meanAbsRelDeviation [1, 3] ∧
    (PriceUpdateInstructionFactory.calculateConfidence [] = 0 ∧
    (∀ x : ℚ, PriceUpdateInstructionFactory.calculateConfidence [x] = 1 / 2) ∧
    PriceUpdateInstructionFactory.calculateConfidence [1, 2]
      = clampSpec (1 - 10 * meanAbsRelDeviation [1, 2]) (1 / 10) (19 / 20) ∧
    PriceUpdateInstructionFactory.calculateConfidence (List.replicate 2 (5 : ℚ)) = 19 / 20 ∧
    PriceUpdateInstructionFactory.calculateConfidence [1, 3]
      ≤ PriceUpdateInstructionFactory.calculateConfidence [1, 2]) :=
  ⟨by decide, by decide, by decide, by norm_num [meanAbsRelDeviation, abs_of_pos],
    calculateConfidence_spec [1, 2] [1, 3] 2 5 (by decide) (by decide) (by decide)
      (by decide) (by norm_num [meanAbsRelDeviation, abs_of_pos])⟩

/-! ### Claims C8 and C10: the keeper decision rule -/

/-- The keeper's initial price-tracking state: default 1% threshold and an
empty `lastPrices` map. -/
def keeperInit : KeeperState :=
  { priceThreshold := KeeperService.mkPriceThreshold none, lastPrices := fun _ => none }

/-- Claim C8: `shouldUpdatePrice` returns true whenever no price is
recorded for the pair; and asking about the same price again right after
the successful update recorded it (the keeper cycle: decide, send, record)
yields true the first time and false the second time. -/
theorem shouldUpdatePrice_first_true_then_false
    (s : KeeperState) (token : String) (np : Option ℚ) (q : ℚ) (now : ℕ)
    (hnone : s.lastPrices token = none) (hθ : 0 < s.priceThreshold) :
    KeeperService.shouldUpdatePrice s token np = true ∧
    KeeperService.shouldUpdatePrice s token (some q) = true ∧
    KeeperService.shouldUpdatePrice
      (KeeperService.recordPriceUpdate s token q now) token (some q) = false := by
  have h1 : ∀ x, KeeperService.shouldUpdatePrice s token x = true := by
    intro x
    unfold KeeperService.shouldUpdatePrice
    rw [hnone]
  refine ⟨h1 np, h1 (some q), ?_⟩
  unfold KeeperService.shouldUpdatePrice KeeperService.recordPriceUpdate
  dsimp only
  rw [if_pos rfl]
  by_cases hq : q = 0
  · show (if q = 0 then decide (q ≠ 0) else _) = false
    rw [if_pos hq]
    simp [hq]
  · show (if q = 0 then decide (q ≠ 0) else decide (s.priceThreshold ≤ |(q - q) / q|)) = false
    rw [if_neg hq, sub_self, zero_div, abs_zero]
    simpa using not_le.mpr hθ

/-- Witness for the C8 theorem at the initial keeper state. -/
theorem shouldUpdatePrice_first_true_then_false_witness :
    keeperInit.lastPrices "SOL/USDC" = none ∧ 0 < keeperInit.priceThreshold ∧
    (KeeperService.shouldUpdatePrice keeperInit "SOL/USDC" (some 50) = true ∧
    KeeperService.shouldUpdatePrice keeperInit "SOL/USDC" (some 50) = true ∧
    KeeperService.shouldUpdatePrice
      (KeeperService.recordPriceUpdate keeperInit "SOL/USDC" 50 10) "SOL/USDC"
      (some 50) = false) :=
  ⟨rfl, by norm_num [keeperInit, KeeperService.mkPriceThreshold],
    shouldUpdatePrice_first_true_then_false keeperInit "SOL/USDC" (some 50) 50 10
      rfl (by norm_num [keeperInit, KeeperService.mkPriceThreshold])⟩

/-- Claim C10: `shouldUpdatePrice` is total on its numeric edge cases — a
recorded last price of zero with a positive new price returns true without
any error (the unguarded `Decimal` division by zero yields `Infinity`,
which passes any threshold), and whenever the new or the recorded price
parses to `NaN`, it returns false. -/
theorem shouldUpdatePrice_edge_cases
    (s s2 : KeeperState) (token : String) (e e2 : LastPrice) (n : ℚ) (p : Option ℚ)
    (hlast : s.lastPrices token = some e) (h0 : e.price = some 0) (hn : 0 < n)
    (hlast2 : s2.lastPrices token = some e2) (hp : p = none ∨ e2.price = none) :
    KeeperService.shouldUpdatePrice s token (some n) = true ∧
    KeeperService.shouldUpdatePrice s2 token p = false := by
  constructor
  · obtain ⟨ep, et⟩ := e
    dsimp only at h0
    subst h0
    unfold KeeperService.shouldUpdatePrice
    rw [hlast]
    show (if (0 : ℚ) = 0 then decide (n ≠ 0) else _) = true
    rw [if_pos rfl]
    simp [ne_of_gt hn]
  · rcases hp with rfl | he
    · unfold KeeperService.shouldUpdatePrice
      rw [hlast2]
    · obtain ⟨e2p, e2t⟩ := e2
      dsimp only at he
      subst he
      unfold KeeperService.shouldUpdatePrice
      rw [hlast2]
      cases p with
      | none => rfl
      | some v => rfl

/-- A keeper state whose recorded value for the pair parses to `NaN`. -/
def keeperNaN : KeeperState :=
  { priceThreshold := 1 / 100
    lastPrices := fun t =>
      if t = "SOL/USDC" then some { price := none, timestamp := 5 } else none }

/-- Witness for the C10 theorem: a zero last price with positive new price,
and a `NaN`-parsing recorded value. -/
theorem shouldUpdatePrice_edge_cases_witness :
    (KeeperService.recordPriceUpdate keeperInit "SOL/USDC" 0 5).lastPrices "SOL/USDC"
      = some { price := some 0, timestamp := 5 } ∧
    keeperNaN.lastPrices "SOL/USDC" = some { price := none, timestamp := 5 } ∧
    (KeeperService.shouldUpdatePrice
      (KeeperService.recordPriceUpdate keeperInit "SOL/USDC" 0 5) "SOL/USDC"
      (some 7) = true ∧
    KeeperService.shouldUpdatePrice keeperNaN "SOL/USDC" (some 3) = false) :=
  ⟨by decide, by decide,
    shouldUpdatePrice_edge_cases
      (KeeperService.recordPriceUpdate keeperInit "SOL/USDC" 0 5) keeperNaN
      "SOL/USDC" { price := some 0, timestamp := 5 } { price := none, timestamp := 5 }
      7 (some 3) (by decide) rfl (by decide) (by decide) (Or.inr rfl)⟩

/-! ### Claim C4: the history ring -/

/-- A whole batch of `addToHistory` insertions, in order. -/
def insertAll (h : HistoryState) (es : List HistoryEntry) : HistoryState :=
  es.foldl HistoryState.addToHistory h

/-- The ring as `initialize` allocates it: 1000 null slots, write index 0. -/
def freshRing : HistoryState :=
  { maxEntries := 1000, currentIndex := 0, entries := List.replicate 1000 none }

/-- Method `initialize` on a fresh account allocates exactly `freshRing`. -/
theorem initialize_history_freshRing (pid auth prog : String) (t0 : ℕ) :
    ( PriceFeedAccount.initialize PriceFeedAccount.new pid auth prog t0).history = freshRing := rfl

/-- Which insertion (index into the insertion list) a ring slot `j` holds
after `n` insertions into the capacity-1000 ring: the largest `k < n` with
`k % 1000 = j`.  Only meaningful for `j < min n 1000`. -/
def slotSrc (n j : ℕ) : ℕ :=
  if j < n % 1000 then n - n % 1000 + j else n - n % 1000 + j - 1000

/-- Full characterization of the ring after `n` insertions into the fresh
ring: the write index is `n % 1000`, the length is fixed at 1000, and slot
`j` holds the latest insertion congruent to `j` mod 1000 (or is still null
if slot `j` has never been written). -/
theorem insertAll_freshRing_spec (es : List HistoryEntry) :
    (insertAll freshRing es).currentIndex = es.length % 1000 ∧
    (insertAll freshRing es).entries.length = 1000 ∧
    ∀ j, j < 1000 →
      (insertAll freshRing es).entries[j]? =
        some (if j < es.length then es[slotSrc es.length j]? else none) := by
  induction es using List.reverseRecOn with
  | nil =>
    refine ⟨rfl, ?_, ?_⟩
    · show (List.replicate 1000 (none : Option HistoryEntry)).length = 1000
      rw [List.length_replicate]
    · intro j hj
      show (List.replicate 1000 (none : Option HistoryEntry))[j]? = _
      rw [List.getElem?_replicate, if_pos hj,
        if_neg (show ¬j < ([] : List HistoryEntry).length by simp)]
  | append_singleton l x ih =>
    obtain ⟨ih1, ih2, ih3⟩ := ih
    have hstep : insertAll freshRing (l ++ [x])
        = (insertAll freshRing l).addToHistory x := by
      unfold insertAll
      rw [List.foldl_append]
      rfl
    have hmax : (insertAll freshRing l).maxEntries = 1000 := by
      have hgen : ∀ es : List HistoryEntry, ∀ h : HistoryState,
          (insertAll h es).maxEntries = h.maxEntries := by
        intro es
        induction es with
        | nil => intro h; rfl
        | cons y ys ihy => intro h; exact (ihy (h.addToHistory y)).trans rfl
      exact hgen l freshRing
    set n := l.length with hn
    refine ⟨?_, ?_, ?_⟩
    · rw [hstep]
      unfold HistoryState.addToHistory
      dsimp only
      rw [hmax, ih1]
      simp only [List.length_append, List.length_singleton]
      omega
    · rw [hstep]
      unfold HistoryState.addToHistory
      dsimp only
      rw [List.length_set, ih2]
    · intro j hj
      rw [hstep]
      unfold HistoryState.addToHistory
      dsimp only
      rw [ih1, List.getElem?_set, ih2]
      simp only [List.length_append, List.length_singleton]
      rcases eq_or_ne (n % 1000) j with hje | hje
      · rw [if_pos hje, if_pos (show n % 1000 < 1000 by omega)]
        have hjlt : j < n + 1 := by omega
        rw [if_pos hjlt]
        have hsrc : slotSrc (n + 1) j = n := by
          unfold slotSrc
          split_ifs <;> omega
        rw [hsrc]
        have hget : (l ++ [x])[n]? = some x := by
          rw [List.getElem?_append_right (by omega)]
          rw [hn]
          simp
        rw [hget]
      · rw [if_neg hje]
        rw [ih3 j hj]
        rcases Nat.lt_or_ge j n with hjn | hjn
        · rw [if_pos hjn, if_pos (show j < n + 1 by omega)]
          have hsrc : slotSrc (n + 1) j = slotSrc n j := by
            unfold slotSrc
            split_ifs <;> omega
          have hlt : slotSrc n j < n := by
            unfold slotSrc
            split_ifs <;> omega
          rw [hsrc, List.getElem?_append]
          rw [if_pos (show slotSrc n j < l.length by omega)]
        · have h2 : ¬j < n + 1 := by omega
          rw [if_neg (show ¬j < n by omega), if_neg h2]

/-- When the ring is full (at least 1000 insertions), its slot array is
exactly the slot-source table. -/
theorem insertAll_full_entries (es : List HistoryEntry) (h : 1000 ≤ es.length) :
    (insertAll freshRing es).entries
      = (List.range 1000).map (fun j => es[slotSrc es.length j]?) := by
  obtain ⟨-, h2, h3⟩ := insertAll_freshRing_spec es
  apply List.ext_getElem?
  intro i
  rcases Nat.lt_or_ge i 1000 with hi | hi
  · rw [h3 i hi, if_pos (by omega), List.getElem?_map, List.getElem?_range hi]
    rfl
  · rw [List.getElem?_eq_none (by omega), List.getElem?_eq_none]
    rw [List.length_map, List.length_range]
    omega

/-- A `filterMap` whose function is total on the list is a `map`. -/
theorem filterMap_eq_map_of_some {α β : Type} (g : α → Option β) (f : α → β) :
    ∀ l : List α, (∀ a ∈ l, g a = some (f a)) → l.filterMap g = l.map f := by
  intro l
  induction l with
  | nil => intro _; rfl
  | cons a t ih =>
    intro hall
    rw [List.filterMap_cons, hall a (List.mem_cons_self a t)]
    dsimp only
    rw [List.map_cons, ih (fun b hb => hall b (List.mem_cons_of_mem a hb))]

/-- Placeholder entry used only as a `getD` default in the proofs. -/
def dfltEntry : HistoryEntry := ⟨0, 0, [], 0⟩

/-- Overwrite-the-oldest, as a statement about the whole run: once more
than the capacity has been inserted, the surviving non-null entries are
exactly (a permutation of) the 1000 most recent insertions — the oldest
ones have been overwritten. -/
theorem survivors_perm_drop (es : List HistoryEntry) (h : 1000 ≤ es.length) :
    ((insertAll freshRing es).entries.filterMap id).Perm
      (es.drop (es.length - 1000)) := by
  rw [insertAll_full_entries es h, List.filterMap_map]
  set n := es.length with hn
  have hall : ∀ j ∈ List.range 1000,
      (id ∘ fun j => es[slotSrc n j]?) j
        = some (es.getD (slotSrc n j) dfltEntry) := by
    intro j hj
    have hj1000 : j < 1000 := List.mem_range.mp hj
    have hlt : slotSrc n j < n := by
      unfold slotSrc
      split_ifs <;> omega
    show es[slotSrc n j]? = some (es.getD (slotSrc n j) dfltEntry)
    rw [List.getElem?_eq_getElem (by omega : slotSrc n j < es.length),
      List.getD_eq_getElem es dfltEntry (by omega : slotSrc n j < es.length)]
  rw [filterMap_eq_map_of_some _ _ (List.range 1000) hall]
  have hslot : ∀ j < 1000,
      slotSrc n j = n - 1000 + ((j + (1000 - n % 1000)) % 1000) := by
    intro j hj
    unfold slotSrc
    split_ifs <;> omega
  have hmapeq : (List.range 1000).map (fun j => es.getD (slotSrc n j) dfltEntry)
      = ((List.range 1000).map (fun j => (j + (1000 - n % 1000)) % 1000)).map
          (fun m => es.getD (n - 1000 + m) dfltEntry) := by
    rw [List.map_map]
    apply List.map_congr_left
    intro j hj
    show es.getD (slotSrc n j) dfltEntry
      = es.getD (n - 1000 + ((j + (1000 - n % 1000)) % 1000)) dfltEntry
    rw [hslot j (List.mem_range.mp hj)]
  have hrot : (List.range 1000).map (fun j => (j + (1000 - n % 1000)) % 1000)
      = (List.range 1000).rotate (1000 - n % 1000) := by
    apply List.ext_getElem
    · rw [List.length_map, List.length_rotate]
    · intro i h1 h2
      simp only [List.getElem_map, List.getElem_range, List.getElem_rotate,
        List.length_range]
  have hdrop : (List.range 1000).map (fun m => es.getD (n - 1000 + m) dfltEntry)
      = es.drop (n - 1000) := by
    apply List.ext_getElem
    · rw [List.length_map, List.length_range, List.length_drop]
      omega
    · intro i h1 h2
      have hi : i < 1000 := by
        rw [List.length_map, List.length_range] at h1
        exact h1
      rw [List.getElem_map, List.getElem_range, List.getElem_drop]
      exact List.getD_eq_getElem es dfltEntry (by omega)
  rw [hmapeq, hrot]
  exact ((List.rotate_perm (List.range 1000) (1000 - n % 1000)).map
    (fun m => es.getD (n - 1000 + m) dfltEntry)).trans (hdrop ▸ List.Perm.refl _)

/-- A batch of `addToHistory` insertions at the account level (the loop of
`updatePrice` calls, restricted to their ring effect). -/
def PriceFeedAccount.insertHistory (a : PriceFeedAccount) (es : List HistoryEntry) :
    PriceFeedAccount :=
  { a with history := insertAll a.history es }

/-- Claim C4: for an initialized account the history ring has fixed
capacity 1000 (it keeps exactly 1000 slots under any number of
insertions); once full, insertion overwrites the oldest slot — after more
than 1000 insertions `getPriceHistory 1000` returns exactly 1000 entries,
sorted newest-first by timestamp, and those entries are exactly (a
permutation of) the last 1000 insertions: the oldest originals have been
discarded. -/
theorem history_ring_capacity_and_getPriceHistory
    (pid auth prog : String) (t0 : ℕ) (es : List HistoryEntry)
    (h : 1000 < es.length) :
    ( PriceFeedAccount.initialize PriceFeedAccount.new pid auth prog t0).history.maxEntries = 1000 ∧
    (( PriceFeedAccount.initialize PriceFeedAccount.new pid auth prog t0).insertHistory
      es).history.entries.length = 1000 ∧
    ((( PriceFeedAccount.initialize PriceFeedAccount.new pid auth prog t0).insertHistory
      es).getPriceHistory 1000).length = 1000 ∧
    List.Pairwise (fun x y => y.timestamp ≤ x.timestamp)
      ((( PriceFeedAccount.initialize PriceFeedAccount.new pid auth prog t0).insertHistory
        es).getPriceHistory 1000) ∧
    ((( PriceFeedAccount.initialize PriceFeedAccount.new pid auth prog t0).insertHistory
      es).getPriceHistory 1000).Perm (es.drop (es.length - 1000)) := by
  have hh : (( PriceFeedAccount.initialize PriceFeedAccount.new pid auth prog t0).insertHistory es).history
      = insertAll freshRing es := by
    show insertAll ( PriceFeedAccount.initialize PriceFeedAccount.new pid auth prog t0).history es = _
    rw [initialize_history_freshRing]
  have hperm := survivors_perm_drop es (le_of_lt h)
  have hlen : ((insertAll freshRing es).entries.filterMap id).length = 1000 := by
    rw [hperm.length_eq, List.length_drop]
    omega
  set le : HistoryEntry → HistoryEntry → Bool :=
    fun x y => decide (y.timestamp ≤ x.timestamp) with hle
  have htrans : ∀ a b c, le a b = true → le b c = true → le a c = true := by
    intro a b c hab hbc
    rw [hle] at hab hbc ⊢
    simp only [decide_eq_true_eq] at hab hbc ⊢
    omega
  have htotal : ∀ a b, (le a b || le b a) = true := by
    intro a b
    rw [hle]
    simp only [Bool.or_eq_true, decide_eq_true_eq]
    omega
  have hsortperm := List.mergeSort_perm
    ((insertAll freshRing es).entries.filterMap id) le
  have hsortlen :
      (((insertAll freshRing es).entries.filterMap id).mergeSort le).length = 1000 := by
    rw [hsortperm.length_eq, hlen]
  have hgph : (( PriceFeedAccount.initialize PriceFeedAccount.new pid auth prog t0).insertHistory
        es).getPriceHistory 1000
      = ((insertAll freshRing es).entries.filterMap id).mergeSort le := by
    unfold PriceFeedAccount.getPriceHistory
    rw [hh, ← hle]
    exact List.take_of_length_le (le_of_eq hsortlen)
  refine ⟨rfl, ?_, ?_, ?_, ?_⟩
  · rw [hh]
    exact (insertAll_freshRing_spec es).2.1
  · rw [hgph]
    exact hsortlen
  · rw [hgph]
    have hs := List.sorted_mergeSort htrans htotal
      ((insertAll freshRing es).entries.filterMap id)
    exact hs.imp (fun hab => by
      rw [hle] at hab
      exact of_decide_eq_true hab)
  · rw [hgph]
    exact hsortperm.trans hperm

/-- Concrete batch of 1001 samples for the C4 witness. -/
def manySamples : List HistoryEntry :=
  (List.range 1001).map
    (fun (k : ℕ) => { price := (k : ℚ), timestamp := k, sources := [], confidence := 0 })

/-- Witness for the C4 theorem: 1001 insertions into the 1000-slot ring. -/
theorem history_ring_capacity_and_getPriceHistory_witness :
    1000 < manySamples.length ∧
    (( PriceFeedAccount.initialize PriceFeedAccount.new "SOL/USDC" "AUTH" "PROG" 100).history.maxEntries = 1000 ∧
    (( PriceFeedAccount.initialize PriceFeedAccount.new "SOL/USDC" "AUTH" "PROG" 100).insertHistory
      manySamples).history.entries.length = 1000 ∧
    ((( PriceFeedAccount.initialize PriceFeedAccount.new "SOL/USDC" "AUTH" "PROG" 100).insertHistory
      manySamples).getPriceHistory 1000).length = 1000 ∧
    List.Pairwise (fun x y => y.timestamp ≤ x.timestamp)
      ((( PriceFeedAccount.initialize PriceFeedAccount.new "SOL/USDC" "AUTH" "PROG" 100).insertHistory
        manySamples).getPriceHistory 1000) ∧
    ((( PriceFeedAccount.initialize PriceFeedAccount.new "SOL/USDC" "AUTH" "PROG" 100).insertHistory
      manySamples).getPriceHistory 1000).Perm
      (manySamples.drop (manySamples.length - 1000))) :=
  ⟨by unfold manySamples; rw [List.length_map, List.length_range]; omega,
    history_ring_capacity_and_getPriceHistory "SOL/USDC" "AUTH" "PROG" 100 manySamples
      (by unfold manySamples; rw [List.length_map, List.length_range]; omega)⟩
